import Mathlib

/-!
Verification of the Prism adapter-registry and streaming-relay core.

Shallow embedding of the Go sources:
- internal/model (request.go, response.go, stream.go, error.go): plain data records.
- internal/adapter (adapter.go, manager.go): the ModelAdapter capability set and the
  AdapterManager registry.  Go interface values become a structure of behaviours; the
  shared mutable map becomes an association list threaded explicitly; methods that
  mutate state return the new state.
- internal/adapter/glm (glm_adapter.go): the GLM backend adapter.  The HTTP client,
  the JSON codec and the request context are external collaborators, modelled as
  explicit environment parameters (a decode oracle, the list of SSE body lines seen
  by the scanner, a cancellation predicate).  The producer goroutine becomes a
  recursive function over the body lines that records the frames sent, the number of
  send attempts, the exit reason, and how often the two deferred releases ran.
- internal/handler/chat_handler.go: the relay; gin output becomes the returned
  status/body value (non-stream path) or the returned list of wire strings (stream
  path).

Machine integers (Go int, int64) are modelled as Int; Go float64 request parameters
are inert payload here and are modelled as Float without arithmetic.
-/

namespace Prism

/-- Message from internal/model/request.go: one chat message (role, content,
optional name). -/
structure Message where
  role : String
  content : String
  name : String
deriving Repr

/-- ChatRequest from internal/model/request.go.  Field names follow the Go JSON
tags.  Pointer-typed optional fields become Option; Stream is a plain bool
defaulting to false, as in Go. -/
structure ChatRequest where
  model : String
  messages : List Message
  temperature : Option Float := none
  maxTokens : Option Int := none
  stream : Bool := false
  topP : Option Float := none
  n : Option Int := none
  stop : List String := []
  presencePenalty : Option Float := none
  frequencyPenalty : Option Float := none
  user : String := ""

/-- Usage from internal/model/response.go: token accounting. -/
structure Usage where
  promptTokens : Int
  completionTokens : Int
  totalTokens : Int
deriving Repr

/-- Choice from internal/model/response.go.  The untyped LogProbs field
(Go interface, raw JSON passthrough, unused by the core) is not modelled. -/
structure Choice where
  index : Int
  message : Option Message
  finishReason : String
deriving Repr

/-- ChatResponse from internal/model/response.go. -/
structure ChatResponse where
  id : String
  object : String
  created : Int
  model : String
  choices : List Choice
  usage : Usage
  systemFingerprint : String := ""
deriving Repr

/-- StreamDelta from internal/model/stream.go: incremental content of one chunk. -/
structure StreamDelta where
  role : String := ""
  content : String := ""
deriving Repr

/-- StreamChoice from internal/model/stream.go.  FinishReason is a Go string
pointer, hence Option; the untyped LogProbs field is not modelled. -/
structure StreamChoice where
  index : Int
  delta : StreamDelta
  finishReason : Option String
deriving Repr

/-- StreamResponse from internal/model/stream.go: one streamed chunk. -/
structure StreamResponse where
  id : String
  object : String
  created : Int
  model : String
  choices : List StreamChoice
  systemFingerprint : String := ""
deriving Repr

/-- ErrorDetail from internal/model/error.go.  Field names follow the Go JSON
tags (message, type, param, code). -/
structure ErrorDetail where
  message : String
  type : String
  param : String := ""
  code : String := ""
deriving Repr

/-- ErrorResponse from internal/model/error.go: the envelope returned to callers
on failure. -/
structure ErrorResponse where
  error : ErrorDetail
deriving Repr

/-- Error type constants from internal/model/error.go. -/
def ErrorTypeInvalidRequest : String := "invalid_request_error"

/-- Error type constant authentication_error. -/
def ErrorTypeAuthentication : String := "authentication_error"

/-- Error type constant permission_error. -/
def ErrorTypePermission : String := "permission_error"

/-- Error type constant not_found_error. -/
def ErrorTypeNotFound : String := "not_found_error"

/-- Error type constant rate_limit_error. -/
def ErrorTypeRateLimit : String := "rate_limit_error"

/-- Error type constant api_error. -/
def ErrorTypeAPIError : String := "api_error"

/-- Error type constant timeout_error. -/
def ErrorTypeTimeout : String := "timeout_error"

/-- Error type constant server_error. -/
def ErrorTypeServerError : String := "server_error"

/-- NewErrorResponse from internal/model/error.go. -/
def NewErrorResponse (errType message : String) : ErrorResponse :=
  { error := { type := errType, message := message } }

/-- NewInvalidRequestError from internal/model/error.go. -/
def NewInvalidRequestError (message param : String) : ErrorResponse :=
  { error := { type := ErrorTypeInvalidRequest, message := message, param := param } }

/-- NewNotFoundError from internal/model/error.go: message is
fmt.Sprintf of the resource followed by " not found". -/
def NewNotFoundError (resource : String) : ErrorResponse :=
  { error := { type := ErrorTypeNotFound, message := resource ++ " not found",
               param := resource } }

/-- NewAPIError from internal/model/error.go. -/
def NewAPIError (message : String) : ErrorResponse :=
  { error := { type := ErrorTypeAPIError, message := message } }

/-- GetHTTPStatus from internal/model/error.go: the switch on the error type
mapping each taxonomy kind to its transport status, defaulting to 500. -/
def ErrorResponse.GetHTTPStatus (e : ErrorResponse) : Nat :=
  if e.error.type = ErrorTypeInvalidRequest then 400
  else if e.error.type = ErrorTypeAuthentication then 401
  else if e.error.type = ErrorTypePermission then 403
  else if e.error.type = ErrorTypeNotFound then 404
  else if e.error.type = ErrorTypeRateLimit then 429
  else if e.error.type = ErrorTypeTimeout then 408
  else if e.error.type = ErrorTypeServerError ∨ e.error.type = ErrorTypeAPIError then 500
  else 500

/-- ModelAdapter from internal/adapter/adapter.go: the capability set every
backend implements (for one fixed request context).  ChatStream takes the
request by pointer in Go and may mutate it, so its embedding returns the
updated request alongside the stream result; the result on success is the
full sequence of frames the single consumer receives from the channel before
it is closed. -/
structure ModelAdapter where
  chat : ChatRequest → Except String ChatResponse
  chatStream : ChatRequest → ChatRequest × Except String (List StreamResponse)
  name : String
  healthCheck : Except String Unit

/-- Lookup in the adapters map of internal/adapter/manager.go.  The Go map with
unique keys (uniqueness enforced by Register) is modelled as an association
list; first match is the map lookup. -/
def lookupAdapter : List (String × ModelAdapter) → String → Option ModelAdapter
  | [], _ => none
  | (k, a) :: rest, modelName =>
    if k = modelName then some a else lookupAdapter rest modelName

/-- AdapterManager from internal/adapter/manager.go.  The RWMutex guards the
map against concurrent access; under the lock every operation is the
sequential map operation modelled here. -/
structure AdapterManager where
  adapters : List (String × ModelAdapter)

/-- NewAdapterManager from internal/adapter/manager.go: empty registry. -/
def NewAdapterManager : AdapterManager := { adapters := [] }

/-- Register from internal/adapter/manager.go.  Validates the name and the
adapter (a Go interface value may be nil, hence the Option parameter), rejects
an already-bound name, otherwise adds the single entry.  Mutation of the
manager becomes returning the new state; the Option String is the returned
error. -/
def AdapterManager.register (m : AdapterManager) (modelName : String)
    (adapter : Option ModelAdapter) : AdapterManager × Option String :=
  if modelName = "" then (m, some "model name cannot be empty")
  else
    match adapter with
    | none => (m, some "adapter cannot be nil")
    | some a =>
      if (lookupAdapter m.adapters modelName).isSome then
        (m, some ("model " ++ modelName ++ " already registered"))
      else ({ adapters := m.adapters ++ [(modelName, a)] }, none)

/-- GetAdapter from internal/adapter/manager.go: lookup under the read lock,
NotFound error when the name is unbound. -/
def AdapterManager.getAdapter (m : AdapterManager) (modelName : String) :
    Except String ModelAdapter :=
  match lookupAdapter m.adapters modelName with
  | none => Except.error ("model " ++ modelName ++ " not found")
  | some a => Except.ok a

/-- AdapterManager.Chat from internal/adapter/manager.go: route by the model
field of the request, wrapping a lookup failure with the dispatch prefix. -/
def AdapterManager.chat (m : AdapterManager) (req : ChatRequest) :
    Except String ChatResponse :=
  match m.getAdapter req.model with
  | Except.error e => Except.error ("获取适配器失败: " ++ e)
  | Except.ok a => a.chat req

/-- AdapterManager.ChatStream from internal/adapter/manager.go: route by the
model field; on lookup failure the request pointer is never handed to any
adapter, so the request is returned unchanged with the wrapped error. -/
def AdapterManager.chatStream (m : AdapterManager) (req : ChatRequest) :
    ChatRequest × Except String (List StreamResponse) :=
  match m.getAdapter req.model with
  | Except.error e => (req, Except.error ("获取适配器失败: " ++ e))
  | Except.ok a => a.chatStream req

/-- The loop body of AdapterManager.HealthCheck: probe each registered adapter
in iteration order, returning on the first failure with the model named.  The
second component instruments the call trace: the model names whose adapters
were actually probed. -/
def healthCheckAux : List (String × ModelAdapter) → Except String Unit × List String
  | [] => (Except.ok (), [])
  | (modelName, a) :: rest =>
    match a.healthCheck with
    | Except.error e =>
      (Except.error ("adapter " ++ modelName ++ " health check failed: " ++ e),
       [modelName])
    | Except.ok _ =>
      let r := healthCheckAux rest
      (r.1, modelName :: r.2)

/-- AdapterManager.HealthCheck from internal/adapter/manager.go: error when the
registry is empty, otherwise the serial fail-fast probe over all entries. -/
def AdapterManager.healthCheck (m : AdapterManager) :
    Except String Unit × List String :=
  if m.adapters.isEmpty then (Except.error "no adapters registered", [])
  else healthCheckAux m.adapters

/-- AdapterManager as a ModelAdapter (manager.go implements the interface so it
can replace a single adapter transparently; Name returns a fixed string). -/
def AdapterManager.asAdapter (m : AdapterManager) : ModelAdapter :=
  { chat := m.chat
    chatStream := m.chatStream
    name := "adapter-manager"
    healthCheck := (m.healthCheck).1 }

/-- The SSE line tag checked by the GLM stream parser (glm_adapter.go). -/
def sseDataTag : String := "data: "

/-- strings.HasPrefix of the SSE tag, as used in the GLM scan loop: byte-wise
prefix test, expressed on the character list of the string. -/
def lineIsData (line : String) : Bool :=
  sseDataTag.data.isPrefixOf line.data

/-- strings.TrimPrefix of the SSE tag under the HasPrefix guard of the scan
loop: drop the tag from the front of the line. -/
def dropTag (line : String) : String :=
  String.mk (line.data.drop sseDataTag.data.length)

/-- Why the producer goroutine of GLMAdapter.ChatStream stopped reading. -/
inductive ExitReason where
  | doneMarker : ExitReason
  | ctxCanceled : ExitReason
  | scanEnd : ExitReason
  | scanFailed : ExitReason
deriving Repr, DecidableEq

/-- Trace of one run of the scan loop of the producer goroutine: the frames
sent into the channel in order, the running count of attempted channel sends,
and why the loop stopped. -/
structure ScanResult where
  sent : List StreamResponse
  attempts : Nat
  exitReason : ExitReason

/-- The scanner loop of the goroutine in GLMAdapter.ChatStream, over the list
of body lines.  decode is the json.Unmarshal collaborator for StreamResponse.
The Go select between sending the frame and ctx.Done is modelled with two
oracles indexed by the send-attempt number (numbered from the given start
index): canceled says whether the ctx.Done case is ready at that attempt, and
pick resolves the select when both cases are ready — Go chooses uniformly at
random among ready cases, so quantifying over pick covers every possible
resolution.  The done branch is taken exactly when the done case is ready and
the resolution chooses it (canceled and pick both true); otherwise the frame
is sent — with the bounded buffer and the single consumer draining until the
channel closes, the send case is ready or becomes ready, and a select whose
done case is not ready blocks until then. -/
def scanLoop (decode : String → Option StreamResponse) (canceled : Nat → Bool)
    (pick : Nat → Bool) : List String → Nat → ScanResult
  | [], k => { sent := [], attempts := k, exitReason := ExitReason.scanEnd }
  | line :: rest, k =>
    if lineIsData line then
      let data := dropTag line
      if data = "[DONE]" then
        { sent := [], attempts := k, exitReason := ExitReason.doneMarker }
      else
        match decode data with
        | none => scanLoop decode canceled pick rest k
        | some frame =>
          if canceled k && pick k then
            { sent := [], attempts := k + 1, exitReason := ExitReason.ctxCanceled }
          else
            let r := scanLoop decode canceled pick rest (k + 1)
            { sent := frame :: r.sent, attempts := r.attempts,
              exitReason := r.exitReason }
    else scanLoop decode canceled pick rest k

/-- Outcome of one run of the producer goroutine: the scan-loop trace plus how
often the response body was closed and how often the channel was closed. -/
structure ProducerOutcome where
  sent : List StreamResponse
  attempts : Nat
  exitReason : ExitReason
  bodyCloses : Nat
  channelCloses : Nat

/-- The producer goroutine of GLMAdapter.ChatStream.  Its first two statements
defer closing the response body and closing the channel; Go runs each deferred
call exactly once on every exit of the goroutine (done marker, context
cancellation, scanner exhaustion, scanner error), hence both close counts are
one on every path.  scanFailedFlag is the scanner.Err result consulted after
the loop when the scanner stopped by itself. -/
def streamGoroutine (decode : String → Option StreamResponse)
    (canceled : Nat → Bool) (pick : Nat → Bool) (body : List String)
    (scanFailedFlag : Bool) : ProducerOutcome :=
  let r := scanLoop decode canceled pick body 0
  let reason :=
    match r.exitReason with
    | ExitReason.scanEnd =>
      if scanFailedFlag then ExitReason.scanFailed else ExitReason.scanEnd
    | e => e
  { sent := r.sent, attempts := r.attempts, exitReason := reason,
    bodyCloses := 1, channelCloses := 1 }

/-- Result of the streaming HTTP exchange of GLMAdapter.ChatStream as the Go
code observes it: either client.Do fails, or a response arrives with a status,
the body lines the scanner will read, the scanner error flag, and the raw body
text io.ReadAll would produce (used only in the non-200 error message). -/
inductive HTTPStreamResult where
  | transportError (msg : String) : HTTPStreamResult
  | response (status : Nat) (body : List String) (scanFailedFlag : Bool)
      (rawBody : String) : HTTPStreamResult

/-- Environment of one GLMAdapter.ChatStream call: the HTTP collaborator, the
JSON decode collaborator, the readiness of the request-context done case at
each send attempt, and the runtime resolution of the select when both of its
cases are ready. -/
structure StreamEnv where
  http : HTTPStreamResult
  decode : String → Option StreamResponse
  canceled : Nat → Bool
  pick : Nat → Bool

/-- Everything observable about one GLMAdapter.ChatStream call: the request
after the call (the Go method mutates it through the pointer), the
establishment error or the frames the consumer receives, and the resource
accounting of the producer. -/
structure GLMStreamOutcome where
  req : ChatRequest
  result : Except String (List StreamResponse)
  bodyCloses : Nat
  channelCloses : Nat
  attempts : Nat

/-- GLMAdapter.ChatStream from glm_adapter.go.  Step 1 forces req.Stream to
true before anything else.  json.Marshal of a ChatRequest and
http.NewRequestWithContext with the fixed method and URL cannot fail, so the
first failure point is client.Do; a non-200 status closes the body once and
returns the formatted error; otherwise the buffered channel is created and the
producer goroutine runs. -/
def glmChatStream (env : StreamEnv) (req0 : ChatRequest) : GLMStreamOutcome :=
  let req := { req0 with stream := true }
  match env.http with
  | HTTPStreamResult.transportError msg =>
    { req := req, result := Except.error ("http request failed: " ++ msg),
      bodyCloses := 0, channelCloses := 0, attempts := 0 }
  | HTTPStreamResult.response status body scanFailedFlag rawBody =>
    if status ≠ 200 then
      { req := req,
        result := Except.error
          ("GLM API error (status " ++ toString status ++ "): " ++ rawBody),
        bodyCloses := 1, channelCloses := 0, attempts := 0 }
    else
      let o := streamGoroutine env.decode env.canceled env.pick body scanFailedFlag
      { req := req, result := Except.ok o.sent, bodyCloses := o.bodyCloses,
        channelCloses := o.channelCloses, attempts := o.attempts }

/-- Result of the non-streaming HTTP exchange of GLMAdapter.Chat: client.Do
failure, io.ReadAll failure, or a status with the body text. -/
inductive HTTPChatResult where
  | transportError (msg : String) : HTTPChatResult
  | readError (msg : String) : HTTPChatResult
  | response (status : Nat) (body : String) : HTTPChatResult

/-- Environment of one GLMAdapter.Chat call: the HTTP collaborator and the
json.Unmarshal collaborator for ChatResponse (carrying its error text). -/
structure ChatEnv where
  http : HTTPChatResult
  decodeResp : String → Except String ChatResponse

/-- GLMAdapter.Chat from glm_adapter.go: marshal (cannot fail), send, read,
check the status, unmarshal; each failure wrapped with its phase prefix. -/
def glmChat (env : ChatEnv) (_req : ChatRequest) : Except String ChatResponse :=
  match env.http with
  | HTTPChatResult.transportError msg =>
    Except.error ("http request failed: " ++ msg)
  | HTTPChatResult.readError msg =>
    Except.error ("read response failed: " ++ msg)
  | HTTPChatResult.response status body =>
    if status ≠ 200 then
      Except.error ("GLM API error (status " ++ toString status ++ "): " ++ body)
    else
      match env.decodeResp body with
      | Except.error e => Except.error ("unmarshal response failed: " ++ e)
      | Except.ok resp => Except.ok resp

/-- The fixed probe request built by GLMAdapter.HealthCheck. -/
def glmTestRequest : ChatRequest :=
  { model := "glm-4"
    messages := [{ role := "user", content := "hi", name := "" }]
    maxTokens := some 5 }

/-- GLMAdapter.HealthCheck from glm_adapter.go: one real Chat round trip with
the probe request, failures wrapped with the health-check prefix. -/
def glmHealthCheck (env : ChatEnv) : Except String Unit :=
  match glmChat env glmTestRequest with
  | Except.error e => Except.error ("health check failed: " ++ e)
  | Except.ok _ => Except.ok ()

/-- The GLM adapter as a ModelAdapter value (its Name method returns the GLMName
constant "glm"), for the fixed collaborator environments of one call. -/
def glmAsAdapter (cenv : ChatEnv) (senv : StreamEnv) : ModelAdapter :=
  { chat := glmChat cenv
    chatStream := fun req =>
      let o := glmChatStream senv req
      (o.req, o.result)
    name := "glm"
    healthCheck := glmHealthCheck cenv }

/-- The JSON body written by c.JSON in the non-stream path of the handler:
either an ErrorResponse or a ChatResponse, serialized by the gin collaborator. -/
inductive JSONBody where
  | errorBody (e : ErrorResponse) : JSONBody
  | responseBody (r : ChatResponse) : JSONBody

/-- handleNormalResponse from internal/handler/chat_handler.go: one Chat call;
on failure the error is wrapped by NewAPIError with the call-failed prefix and
written with the status its type dictates; on success the adapter response is
written as-is with status 200. -/
def handleNormalResponse (adapter : ModelAdapter) (req : ChatRequest) :
    Nat × JSONBody :=
  match adapter.chat req with
  | Except.error e =>
    let errResp := NewAPIError ("模型调用失败: " ++ e)
    (errResp.GetHTTPStatus, JSONBody.errorBody errResp)
  | Except.ok resp => (200, JSONBody.responseBody resp)

/-- handleStreamResponse from internal/handler/chat_handler.go, producing the
list of wire strings written to the SSE response in order.  encode is the
json.Marshal collaborator for StreamResponse (it cannot fail on this plain
struct, so the defensive serialize-error branch of the loop is dead code and
not modelled); encodeErr serializes the ErrorResponse of sendSSEError.  On a
failed stream establishment a single SSE error frame is written and no
terminal marker; on success every received frame is written as one wire frame
and the loop is followed by exactly one terminal marker. -/
def handleStreamResponse (encode : StreamResponse → String)
    (encodeErr : ErrorResponse → String) (adapter : ModelAdapter)
    (req : ChatRequest) : ChatRequest × List String :=
  match adapter.chatStream req with
  | (req1, Except.error e) =>
    (req1,
     [sseDataTag ++ encodeErr (NewAPIError ("模型调用失败: " ++ e)) ++ "\n\n"])
  | (req1, Except.ok frames) =>
    (req1,
     frames.map (fun f => sseDataTag ++ encode f ++ "\n\n") ++ ["data: [DONE]\n\n"])

/-- A stub backend adapter whose health check succeeds (a test implementation
of the Go ModelAdapter interface). -/
def stubHealthyAdapter (nm : String) : ModelAdapter :=
  { chat := fun _ => Except.error "stub"
    chatStream := fun req => (req, Except.error "stub")
    name := nm
    healthCheck := Except.ok () }

/-- A stub backend adapter whose health check fails with the given message. -/
def stubFailingAdapter (nm msg : String) : ModelAdapter :=
  { chat := fun _ => Except.error "stub"
    chatStream := fun req => (req, Except.error "stub")
    name := nm
    healthCheck := Except.error msg }

/-- The stub response of the spec scenario: id chatcmpl-1, one assistant
choice saying hello with finish reason stop, usage 1 plus 1 equals 2.  Fields
absent from the scenario JSON are the Go zero values. -/
def stubChatResponse : ChatResponse :=
  { id := "chatcmpl-1"
    object := ""
    created := 0
    model := ""
    choices := [{ index := 0
                  message := some { role := "assistant", content := "hello", name := "" }
                  finishReason := "stop" }]
    usage := { promptTokens := 1, completionTokens := 1, totalTokens := 2 } }

/-- A stub adapter whose Chat always returns the scenario stub response. -/
def stubChatAdapter : ModelAdapter :=
  { chat := fun _ => Except.ok stubChatResponse
    chatStream := fun req => (req, Except.error "stub")
    name := "stub"
    healthCheck := Except.ok () }

/-- A registry binding glm-4 to the stub adapter, as in the spec scenarios. -/
def mgrGlm4 : AdapterManager := { adapters := [("glm-4", stubChatAdapter)] }

/-- The scenario request for the bound model glm-4, non-streaming. -/
def reqGlm4 : ChatRequest :=
  { model := "glm-4"
    messages := [{ role := "user", content := "hi", name := "" }]
    stream := false }

/-- The same request with the unknown model glm-9. -/
def reqGlm9 : ChatRequest :=
  { model := "glm-9"
    messages := [{ role := "user", content := "hi", name := "" }]
    stream := false }

/-- A concrete first streamed chunk (assistant role, empty content). -/
def frame1 : StreamResponse :=
  { id := "chatcmpl-x"
    object := "chat.completion.chunk"
    created := 1
    model := "glm-4"
    choices := [{ index := 0
                  delta := { role := "assistant", content := "" }
                  finishReason := none }] }

/-- A concrete content chunk. -/
def frame2 : StreamResponse :=
  { id := "chatcmpl-x"
    object := "chat.completion.chunk"
    created := 1
    model := "glm-4"
    choices := [{ index := 0
                  delta := { role := "", content := "hi" }
                  finishReason := none }] }

/-- A concrete terminal chunk (empty delta, finish reason stop). -/
def frame3 : StreamResponse :=
  { id := "chatcmpl-x"
    object := "chat.completion.chunk"
    created := 1
    model := "glm-4"
    choices := [{ index := 0
                  delta := { role := "", content := "" }
                  finishReason := some "stop" }] }

/-- A concrete json.Unmarshal oracle: three decodable payloads, everything
else malformed. -/
def decode0 : String → Option StreamResponse := fun s =>
  if s = "j1" then some frame1
  else if s = "j2" then some frame2
  else if s = "j3" then some frame3
  else none

/-- Modelled from the spec: the error-taxonomy table of section 7 mapping each
error kind to its default transport status, with everything outside the table
mapping to 500.  This is the specification side of the refinement check
against GetHTTPStatus. -/
def specStatusOfType (t : String) : Nat :=
  if t = "invalid_request_error" then 400
  else if t = "authentication_error" then 401
  else if t = "permission_error" then 403
  else if t = "not_found_error" then 404
  else if t = "timeout_error" then 408
  else if t = "rate_limit_error" then 429
  else 500

/-- A registry of three adapters whose middle one fails its health check. -/
def mgrHealth : AdapterManager :=
  { adapters := [("m1", stubHealthyAdapter "a1"),
                 ("m2", stubFailingAdapter "a2" "boom"),
                 ("m3", stubHealthyAdapter "a3")] }

/-- A chat environment in which the backend is unreachable. -/
def cenv0 : ChatEnv :=
  { http := HTTPChatResult.transportError "down"
    decodeResp := fun _ => Except.error "bad" }

/-- A stream environment in which the backend is unreachable. -/
def senv0 : StreamEnv :=
  { http := HTTPStreamResult.transportError "down"
    decode := decode0
    canceled := fun _ => false
    pick := fun _ => false }

/-- A registry binding glm-4 to the GLM adapter for fixed environments. -/
def mgrGlmStream : AdapterManager :=
  { adapters := [("glm-4", glmAsAdapter cenv0 senv0)] }

/-- A stream environment with a 200 response carrying two well-formed frames
and the terminal marker, no scanner error, no cancellation. -/
def senvHappy : StreamEnv :=
  { http := HTTPStreamResult.response 200
      (["j1", "j2"].map (fun s => sseDataTag ++ s) ++ [sseDataTag ++ "[DONE]"])
      false ""
    decode := decode0
    canceled := fun _ => false
    pick := fun _ => false }

/-- Context cancellation observed from send attempt 1 onward. -/
def cancelFrom1 : Nat → Bool := fun m => decide (1 ≤ m)

/-- A line formed by the SSE tag followed by a payload passes the HasPrefix
test of the scan loop. -/
lemma lineIsData_tag_append (s : String) : lineIsData (sseDataTag ++ s) = true := by
  simp [lineIsData, String.data_append]

/-- Trimming the SSE tag from a tagged line recovers the payload. -/
lemma dropTag_tag_append (s : String) : dropTag (sseDataTag ++ s) = s := by
  simp only [dropTag, String.data_append, List.drop_left]

/-- On a body of tagged well-formed frames followed by the tagged terminal
marker, with the done case never ready, the scan loop sends exactly the
decoded frames in order for every select resolution, uses one send attempt
per frame, and exits at the terminal marker. -/
lemma scanLoop_happy (decode : String → Option StreamResponse)
    (pick : Nat → Bool) (datas : List String) (fs : List StreamResponse)
    (hwf : List.Forall₂ (fun s f => s ≠ "[DONE]" ∧ decode s = some f) datas fs)
    (k : Nat) :
    scanLoop decode (fun _ => false) pick
        (datas.map (fun s => sseDataTag ++ s) ++ [sseDataTag ++ "[DONE]"]) k =
      { sent := fs, attempts := k + fs.length,
        exitReason := ExitReason.doneMarker } := by
  induction hwf generalizing k with
  | nil =>
    simp [scanLoop, lineIsData_tag_append, dropTag_tag_append]
  | cons hsf hrest ih =>
    obtain ⟨hne, hdec⟩ := hsf
    simp [scanLoop, lineIsData_tag_append, dropTag_tag_append, hne, hdec, ih]
    omega

/-- Every frame the scan loop sends was sent at an attempt at which the
select did not take the done branch (the done case was not ready, or the
resolution chose the send case). -/
lemma scanLoop_sent_not_observed (decode : String → Option StreamResponse)
    (canceled pick : Nat → Bool) :
    ∀ (lines : List String) (k j : Nat),
      j < (scanLoop decode canceled pick lines k).sent.length →
      (canceled (k + j) && pick (k + j)) = false := by
  intro lines
  induction lines with
  | nil => intro k j hj; simp [scanLoop] at hj
  | cons line rest ih =>
    intro k j hj
    by_cases h1 : lineIsData line
    · by_cases h2 : dropTag line = "[DONE]"
      · simp [scanLoop, h1, h2] at hj
      · cases hdec : decode (dropTag line) with
        | none =>
          simp [scanLoop, h1, h2, hdec] at hj
          exact ih k j hj
        | some frame =>
          by_cases h3 : (canceled k && pick k) = true
          · simp [scanLoop, h1, h2, hdec, h3] at hj
          · simp [scanLoop, h1, h2, hdec, h3] at hj
            match j with
            | 0 => simpa using h3
            | j + 1 =>
              have hrec := ih (k + 1) j (by omega)
              have : k + (j + 1) = (k + 1) + j := by omega
              rw [this]
              exact hrec
    · simp [scanLoop, h1] at hj
      exact ih k j hj

/-- Send-attempt accounting of the scan loop: attempts equal the start index
plus one per sent frame, plus one more for the attempt that observed
cancellation when the loop exited that way. -/
lemma scanLoop_attempts_eq (decode : String → Option StreamResponse)
    (canceled pick : Nat → Bool) :
    ∀ (lines : List String) (k : Nat),
      (scanLoop decode canceled pick lines k).attempts =
        k + (scanLoop decode canceled pick lines k).sent.length +
          (if (scanLoop decode canceled pick lines k).exitReason =
              ExitReason.ctxCanceled then 1 else 0) := by
  intro lines
  induction lines with
  | nil => intro k; simp [scanLoop]
  | cons line rest ih =>
    intro k
    by_cases h1 : lineIsData line
    · by_cases h2 : dropTag line = "[DONE]"
      · simp [scanLoop, h1, h2]
      · cases hdec : decode (dropTag line) with
        | none => simp [scanLoop, h1, h2, hdec]; exact ih k
        | some frame =>
          by_cases h3 : (canceled k && pick k) = true
          · simp [scanLoop, h1, h2, hdec, h3]
          · simp [scanLoop, h1, h2, hdec, h3]
            rw [ih (k + 1)]
            generalize (if (scanLoop decode canceled pick rest (k + 1)).exitReason =
              ExitReason.ctxCanceled then 1 else 0) = t
            omega
    · simp [scanLoop, h1]; exact ih k

/-- A manager whose adapters list is non-empty has isEmpty false. -/
lemma adapters_isEmpty_false {m : AdapterManager} (h : m.adapters ≠ []) :
    m.adapters.isEmpty = false := by
  cases hm : m.adapters with
  | nil => exact absurd hm h
  | cons q rest => simp [hm]

/-- When every adapter in the list is healthy the probe loop succeeds having
probed every entry in order. -/
lemma healthCheckAux_all_ok (l : List (String × ModelAdapter))
    (h : ∀ p ∈ l, p.2.healthCheck = Except.ok ()) :
    healthCheckAux l = (Except.ok (), l.map Prod.fst) := by
  induction l with
  | nil => simp [healthCheckAux]
  | cons p rest ih =>
    obtain ⟨nm, a⟩ := p
    have hp : a.healthCheck = Except.ok () := h (nm, a) (by simp)
    have ih2 := ih (fun q hq => h q (List.mem_cons_of_mem _ hq))
    simp [healthCheckAux, hp, ih2]

/-- When the adapters before position i are healthy and the adapter at i
fails, the probe loop stops at i with the failure naming that model, having
probed exactly the entries up to and including i. -/
lemma healthCheckAux_first_fail (pre : List (String × ModelAdapter))
    (modelName : String) (a : ModelAdapter) (post : List (String × ModelAdapter))
    (e : String) (hpre : ∀ p ∈ pre, p.2.healthCheck = Except.ok ())
    (ha : a.healthCheck = Except.error e) :
    healthCheckAux (pre ++ (modelName, a) :: post) =
      (Except.error ("adapter " ++ modelName ++ " health check failed: " ++ e),
       pre.map Prod.fst ++ [modelName]) := by
  induction pre with
  | nil => simp [healthCheckAux, ha]
  | cons p rest ih =>
    obtain ⟨nm, b⟩ := p
    have hp : b.healthCheck = Except.ok () := hpre (nm, b) (by simp)
    have ih2 := ih (fun q hq => hpre q (List.mem_cons_of_mem _ hq))
    simp [healthCheckAux, hp, ih2]

/-- The request coming out of a GLM ChatStream call is the incoming request
with the Stream flag forced to true, on every path of the call. -/
lemma glmChatStream_req_eq (senv : StreamEnv) (req : ChatRequest) :
    (glmChatStream senv req).req = { req with stream := true } := by
  cases h : senv.http with
  | transportError msg => simp [glmChatStream, h]
  | response status body flag raw =>
    simp only [glmChatStream, h]
    split <;> rfl

/-- C3: Register fails and leaves the registry map unchanged when the model
name is empty, the adapter is nil, or the name is already bound — so a second
registration of a name never replaces the first binding — and otherwise
succeeds, adding exactly the one new entry. -/
theorem register_correct (m : AdapterManager) (modelName : String)
    (a : Option ModelAdapter) :
    (modelName = "" →
       m.register modelName a = (m, some "model name cannot be empty")) ∧
    (modelName ≠ "" → a = none →
       m.register modelName a = (m, some "adapter cannot be nil")) ∧
    (∀ ad, modelName ≠ "" → a = some ad →
       (lookupAdapter m.adapters modelName).isSome = true →
       m.register modelName a =
         (m, some ("model " ++ modelName ++ " already registered"))) ∧
    (∀ ad, modelName ≠ "" → a = some ad →
       lookupAdapter m.adapters modelName = none →
       m.register modelName a =
         ({ adapters := m.adapters ++ [(modelName, ad)] }, none)) := by
  refine ⟨?_, ?_, ?_, ?_⟩
  · intro h; simp [AdapterManager.register, h]
  · intro h hn; subst hn; simp [AdapterManager.register, h]
  · intro ad h ha hl; subst ha; simp [AdapterManager.register, h, hl]
  · intro ad h ha hl; subst ha; simp [AdapterManager.register, h, hl]

/-- C3 witness: registering glm-4 in the empty registry adds that one entry;
registering glm-4 a second time fails with the already-registered error and
leaves the registry unchanged. -/
theorem register_correct_witness :
    NewAdapterManager.register "glm-4" (some (stubHealthyAdapter "glm")) =
      ({ adapters := [("glm-4", stubHealthyAdapter "glm")] }, none) ∧
    (AdapterManager.mk [("glm-4", stubHealthyAdapter "glm")]).register "glm-4"
        (some (stubHealthyAdapter "glm2")) =
      (AdapterManager.mk [("glm-4", stubHealthyAdapter "glm")],
       some "model glm-4 already registered") := by
  constructor
  · exact (register_correct NewAdapterManager "glm-4"
      (some (stubHealthyAdapter "glm"))).2.2.2 (stubHealthyAdapter "glm")
      (by decide) rfl rfl
  · exact (register_correct (AdapterManager.mk [("glm-4", stubHealthyAdapter "glm")])
      "glm-4" (some (stubHealthyAdapter "glm2"))).2.2.1 (stubHealthyAdapter "glm2")
      (by decide) rfl rfl

/-- C6: over a non-empty registry, HealthCheck succeeds when every registered
adapter is healthy; when the first failing adapter in iteration order is
reached, HealthCheck fails naming that model, and the adapters after it are
not probed (the probe trace is exactly the entries up to and including the
failing one). -/
theorem healthCheck_reports (m : AdapterManager) (h : m.adapters ≠ []) :
    ((∀ p ∈ m.adapters, p.2.healthCheck = Except.ok ()) →
       m.healthCheck = (Except.ok (), m.adapters.map Prod.fst)) ∧
    (∀ pre modelName a post e,
       m.adapters = pre ++ (modelName, a) :: post →
       (∀ p ∈ pre, p.2.healthCheck = Except.ok ()) →
       a.healthCheck = Except.error e →
       m.healthCheck =
         (Except.error ("adapter " ++ modelName ++ " health check failed: " ++ e),
          pre.map Prod.fst ++ [modelName])) := by
  have hne := adapters_isEmpty_false h
  constructor
  · intro hall
    simp [AdapterManager.healthCheck, hne, healthCheckAux_all_ok m.adapters hall]
  · intro pre modelName a post e hsplit hpre ha
    rw [AdapterManager.healthCheck, hne]
    simp only [Bool.false_eq_true, if_false, hsplit]
    exact healthCheckAux_first_fail pre modelName a post e hpre ha

/-- C6 witness: over three adapters whose second one fails, HealthCheck fails
naming model m2 and probes only m1 and m2. -/
theorem healthCheck_reports_witness :
    mgrHealth.healthCheck =
      (Except.error "adapter m2 health check failed: boom", ["m1", "m2"]) := by
  have hpre : ∀ p ∈ [("m1", stubHealthyAdapter "a1")],
      p.2.healthCheck = Except.ok () := by
    intro p hp
    rw [List.mem_singleton] at hp
    subst hp
    rfl
  have h := (healthCheck_reports mgrHealth (by simp [mgrHealth])).2
    [("m1", stubHealthyAdapter "a1")] "m2" (stubFailingAdapter "a2" "boom")
    [("m3", stubHealthyAdapter "a3")] "boom" rfl hpre rfl
  simpa using h

/-- C7: the transport status computed from an error type follows the spec
taxonomy table: 400, 401, 403, 404, 408, 429 for the six specific kinds, 500
for server_error, api_error and everything else. -/
theorem getHTTPStatus_follows_taxonomy (e : ErrorResponse) :
    e.GetHTTPStatus = specStatusOfType e.error.type := by
  unfold ErrorResponse.GetHTTPStatus specStatusOfType ErrorTypeInvalidRequest
    ErrorTypeAuthentication ErrorTypePermission ErrorTypeNotFound
    ErrorTypeRateLimit ErrorTypeTimeout ErrorTypeServerError ErrorTypeAPIError
  split_ifs <;> simp_all

/-- C8: when the adapter Chat call succeeds, the non-stream relay returns the
adapter response as-is (no field transformed) with status 200. -/
theorem chat_success_passthrough (adapter : ModelAdapter) (req : ChatRequest)
    (resp : ChatResponse) (h : adapter.chat req = Except.ok resp) :
    handleNormalResponse adapter req = (200, JSONBody.responseBody resp) := by
  simp [handleNormalResponse, h]

/-- C8 witness: the spec stub scenario — glm-4 bound to a stub adapter
returning the chatcmpl-1 response — yields exactly that response with
status 200. -/
theorem chat_success_passthrough_witness :
    handleNormalResponse mgrGlm4.asAdapter reqGlm4 =
      (200, JSONBody.responseBody stubChatResponse) :=
  chat_success_passthrough mgrGlm4.asAdapter reqGlm4 stubChatResponse rfl

/-- C9: HealthCheck over a registry with no adapters registered returns the
no-adapters-registered failure, never vacuous success. -/
theorem healthCheck_empty_registry (m : AdapterManager) (h : m.adapters = []) :
    m.healthCheck = (Except.error "no adapters registered", []) := by
  simp [AdapterManager.healthCheck, h]

/-- C9 witness: the freshly created manager reports the no-adapters error. -/
theorem healthCheck_empty_registry_witness :
    NewAdapterManager.healthCheck = (Except.error "no adapters registered", []) :=
  healthCheck_empty_registry NewAdapterManager rfl

/-- C1: observed behaviour at the failing input.  With glm-4 bound and the
unknown model glm-9 requested without streaming, the relay returns the
api_error wrap of the registry lookup failure with transport status 500 — not
the not_found_error with status 404 and message claiming the model was not
found that the claim requires — even though the unused NewNotFoundError
constructor of error.go carries exactly the claimed message, type and 404
status.  The handler wraps the routing failure and an upstream call failure
identically. -/
theorem unknown_model_yields_api_error_500 :
    handleNormalResponse mgrGlm4.asAdapter reqGlm9 =
      (500, JSONBody.errorBody
        (NewAPIError "模型调用失败: 获取适配器失败: model glm-9 not found")) ∧
    (NewAPIError "模型调用失败: 获取适配器失败: model glm-9 not found").error.type =
      "api_error" ∧
    (NewNotFoundError "model").error.message = "model not found" ∧
    (NewNotFoundError "model").error.type = "not_found_error" ∧
    (NewNotFoundError "model").GetHTTPStatus = 404 :=
  ⟨rfl, rfl, rfl, rfl, rfl⟩

/-- C10 counterexample: dispatching ChatStream through a registry in which the
request model is not bound returns before any adapter is called, so the
caller request keeps Stream = false, contradicting the claim that after any
ChatStream call (direct or dispatched through the registry) the request has
Stream = true. -/
theorem chatStream_unregistered_leaves_request :
    (NewAdapterManager.chatStream reqGlm9).1 = reqGlm9 ∧ reqGlm9.stream = false :=
  ⟨rfl, rfl⟩

/-- C10 (amended): a direct GLM ChatStream call always sets the caller
request Stream field to true before the backend call, regardless of its
original value, leaving all other fields unchanged; a registry-dispatched
ChatStream forwards the same request to the adapter the model name resolves
to (hence mutates it the same way when that adapter is the GLM one), and when
the lookup fails it returns the request entirely unchanged. -/
theorem chatStream_forces_stream_flag :
    (∀ (senv : StreamEnv) (req : ChatRequest),
       (glmChatStream senv req).req = { req with stream := true }) ∧
    (∀ (cenv : ChatEnv) (senv : StreamEnv) (req : ChatRequest),
       ((glmAsAdapter cenv senv).chatStream req).1 = { req with stream := true }) ∧
    (∀ (m : AdapterManager) (a : ModelAdapter) (req : ChatRequest),
       lookupAdapter m.adapters req.model = some a →
       m.chatStream req = a.chatStream req) ∧
    (∀ (m : AdapterManager) (req : ChatRequest),
       lookupAdapter m.adapters req.model = none →
       (m.chatStream req).1 = req) := by
  refine ⟨?_, ?_, ?_, ?_⟩
  · intro senv req
    exact glmChatStream_req_eq senv req
  · intro cenv senv req
    exact glmChatStream_req_eq senv req
  · intro m a req h
    simp [AdapterManager.chatStream, AdapterManager.getAdapter, h]
  · intro m req h
    simp [AdapterManager.chatStream, AdapterManager.getAdapter, h]

/-- C10 witness: dispatching a non-streaming request for the bound model glm-4
through the registry to the GLM adapter leaves the caller request equal to
itself with Stream forced to true. -/
theorem chatStream_forces_stream_flag_witness :
    (mgrGlmStream.chatStream reqGlm4).1 = { reqGlm4 with stream := true } := by
  have h2 := chatStream_forces_stream_flag.2.2.1 mgrGlmStream
    (glmAsAdapter cenv0 senv0) reqGlm4 rfl
  rw [h2]
  exact chatStream_forces_stream_flag.2.1 cenv0 senv0 reqGlm4

/-- C2: for any N well-formed upstream frames followed by the terminal
marker, with no cancellation, the GLM stream call delivers exactly those N
frames in order to the consumer, releases the response body exactly once and
closes the channel exactly once, and the relay emits exactly N wire frames in
the same order, followed by exactly one terminal marker line. -/
theorem stream_relay_preserves_frames
    (encode : StreamResponse → String) (encodeErr : ErrorResponse → String)
    (cenv : ChatEnv) (decode : String → Option StreamResponse)
    (pick : Nat → Bool) (datas : List String) (fs : List StreamResponse)
    (req : ChatRequest) (senv : StreamEnv)
    (hwf : List.Forall₂ (fun s f => s ≠ "[DONE]" ∧ decode s = some f) datas fs)
    (hsenv : senv =
      { http := HTTPStreamResult.response 200
          (datas.map (fun s => sseDataTag ++ s) ++ [sseDataTag ++ "[DONE]"])
          false ""
        decode := decode
        canceled := fun _ => false
        pick := pick }) :
    (glmChatStream senv req).result = Except.ok fs ∧
    (glmChatStream senv req).bodyCloses = 1 ∧
    (glmChatStream senv req).channelCloses = 1 ∧
    (handleStreamResponse encode encodeErr (glmAsAdapter cenv senv) req).2 =
      fs.map (fun f => sseDataTag ++ encode f ++ "\n\n") ++ ["data: [DONE]\n\n"] := by
  subst hsenv
  have hscan := scanLoop_happy decode pick datas fs hwf 0
  refine ⟨?_, ?_, ?_, ?_⟩ <;>
    simp [glmChatStream, streamGoroutine, hscan, handleStreamResponse,
      glmAsAdapter]

/-- C2 witness: two well-formed frames followed by the terminal marker yield
exactly those two frames in order, single releases, and two wire frames
followed by one terminal marker. -/
theorem stream_relay_preserves_frames_witness :
    (glmChatStream senvHappy reqGlm4).result = Except.ok [frame1, frame2] ∧
    (glmChatStream senvHappy reqGlm4).bodyCloses = 1 ∧
    (glmChatStream senvHappy reqGlm4).channelCloses = 1 ∧
    (handleStreamResponse (fun _ => "enc") (fun _ => "err")
        (glmAsAdapter cenv0 senvHappy) reqGlm4).2 =
      [frame1, frame2].map (fun f => sseDataTag ++ (fun _ => "enc") f ++ "\n\n") ++
        ["data: [DONE]\n\n"] :=
  stream_relay_preserves_frames (fun _ => "enc") (fun _ => "err") cenv0 decode0
    (fun _ => false) ["j1", "j2"] [frame1, frame2] reqGlm4 senvHappy
    (List.Forall₂.cons ⟨by decide, rfl⟩
      (List.Forall₂.cons ⟨by decide, rfl⟩ List.Forall₂.nil)) rfl

/-- C4: a malformed data line — tagged, not the terminal marker, and not JSON
decodable — anywhere in the body is skipped: the entire scan-loop trace
(frames sent, their order and count, send attempts, exit reason) equals the
trace without that line, so the malformed line is never emitted, never ends
the stream, and never reaches the caller. -/
theorem malformed_frame_skipped (decode : String → Option StreamResponse)
    (canceled pick : Nat → Bool) (pre post : List String) (bad : String) (k : Nat)
    (h1 : lineIsData bad = true) (h2 : dropTag bad ≠ "[DONE]")
    (h3 : decode (dropTag bad) = none) :
    scanLoop decode canceled pick (pre ++ bad :: post) k =
      scanLoop decode canceled pick (pre ++ post) k := by
  induction pre generalizing k with
  | nil => simp [scanLoop, h1, h2, h3]
  | cons line rest ih =>
    by_cases g1 : lineIsData line
    · by_cases g2 : dropTag line = "[DONE]"
      · simp [scanLoop, g1, g2]
      · cases gdec : decode (dropTag line) with
        | none => simp [scanLoop, g1, g2, gdec]; exact ih k
        | some frame =>
          by_cases g3 : (canceled k && pick k) = true
          · simp [scanLoop, g1, g2, gdec, g3]
          · simp [scanLoop, g1, g2, gdec, g3, ih (k + 1)]
    · simp [scanLoop, g1]; exact ih k

/-- C4 witness: a malformed line between two well-formed frames produces the
same scan-loop trace as the stream without it. -/
theorem malformed_frame_skipped_witness :
    scanLoop decode0 (fun _ => false) (fun _ => false)
        ["data: j1", "data: oops", "data: j2", "data: [DONE]"] 0 =
      scanLoop decode0 (fun _ => false) (fun _ => false)
        ["data: j1", "data: j2", "data: [DONE]"] 0 :=
  malformed_frame_skipped decode0 (fun _ => false) (fun _ => false) ["data: j1"]
    ["data: j2", "data: [DONE]"] "data: oops" 0 (by decide) (by decide) rfl

/-- C5 counterexample: the Go select between the channel send and ctx.Done
has no priority — Go chooses uniformly among ready cases — so with the
consumer context canceled before any send (the done case ready at every
attempt) and a resolution that takes the ready send case each time (possible
because the buffered channel keeps the send case ready while the consumer
drains), the producer performs two send attempts and sends both frames after
cancellation, exceeding the claimed at-most-one attempted send, and never
observes cancellation at all. -/
theorem producer_cancellation_unbounded :
    (streamGoroutine decode0 (fun _ => true) (fun _ => false)
        ["data: j1", "data: j2", "data: [DONE]"] false).sent = [frame1, frame2] ∧
    (streamGoroutine decode0 (fun _ => true) (fun _ => false)
        ["data: j1", "data: j2", "data: [DONE]"] false).attempts = 2 ∧
    (streamGoroutine decode0 (fun _ => true) (fun _ => false)
        ["data: j1", "data: j2", "data: [DONE]"] false).exitReason =
      ExitReason.doneMarker :=
  ⟨rfl, rfl, rfl⟩

/-- C5 (amended): the producer releases the body and closes the channel
exactly once on every exit path regardless of cancellation and of how the
select resolves; no frame is ever sent at an attempt where the select took
the done branch (once cancellation is observed the producer returns at once,
sending nothing further); and whenever from attempt k onward the done case is
ready and the select resolves to it, the producer sends at most k frames and
stops within one further attempted send.  Without that assumption on the
resolution Go guarantees no bound on the number of sends after cancellation. -/
theorem producer_observed_cancellation_stops
    (decode : String → Option StreamResponse) (canceled pick : Nat → Bool)
    (body : List String) (flag : Bool) (k : Nat) :
    ((streamGoroutine decode canceled pick body flag).bodyCloses = 1 ∧
     (streamGoroutine decode canceled pick body flag).channelCloses = 1) ∧
    (∀ j, j < (streamGoroutine decode canceled pick body flag).sent.length →
       (canceled j && pick j) = false) ∧
    ((∀ m, k ≤ m → (canceled m && pick m) = true) →
       (streamGoroutine decode canceled pick body flag).sent.length ≤ k ∧
       (streamGoroutine decode canceled pick body flag).attempts ≤ k + 1) := by
  have e1 : (streamGoroutine decode canceled pick body flag).sent =
      (scanLoop decode canceled pick body 0).sent := rfl
  have e2 : (streamGoroutine decode canceled pick body flag).attempts =
      (scanLoop decode canceled pick body 0).attempts := rfl
  have hsent : ∀ j, j < (scanLoop decode canceled pick body 0).sent.length →
      (canceled j && pick j) = false := by
    intro j hj
    have h := scanLoop_sent_not_observed decode canceled pick body 0 j hj
    simpa using h
  refine ⟨⟨rfl, rfl⟩, ?_, ?_⟩
  · intro j hj
    rw [e1] at hj
    exact hsent j hj
  · intro hk
    have hlen : (scanLoop decode canceled pick body 0).sent.length ≤ k := by
      by_contra hlt
      push_neg at hlt
      have hfalse := hsent k hlt
      rw [hk k (Nat.le_refl k)] at hfalse
      simp at hfalse
    refine ⟨?_, ?_⟩
    · rw [e1]
      exact hlen
    · rw [e2, scanLoop_attempts_eq decode canceled pick body 0]
      have hone : (if (scanLoop decode canceled pick body 0).exitReason =
          ExitReason.ctxCanceled then 1 else 0) ≤ 1 := by
        split <;> omega
      omega

/-- C5 (amended) witness: with the done case ready from send attempt 1 onward
and a resolution that always takes it when ready, a three-frame body yields
single body and channel closes, at most one sent frame, and at most two send
attempts. -/
theorem producer_observed_cancellation_stops_witness :
    (streamGoroutine decode0 cancelFrom1 (fun _ => true)
        ["data: j1", "data: j2", "data: j3", "data: [DONE]"] false).bodyCloses = 1 ∧
    (streamGoroutine decode0 cancelFrom1 (fun _ => true)
        ["data: j1", "data: j2", "data: j3", "data: [DONE]"] false).channelCloses = 1 ∧
    (streamGoroutine decode0 cancelFrom1 (fun _ => true)
        ["data: j1", "data: j2", "data: j3", "data: [DONE]"] false).sent.length ≤ 1 ∧
    (streamGoroutine decode0 cancelFrom1 (fun _ => true)
        ["data: j1", "data: j2", "data: j3", "data: [DONE]"] false).attempts ≤ 2 := by
  have h := producer_observed_cancellation_stops decode0 cancelFrom1
    (fun _ => true) ["data: j1", "data: j2", "data: j3", "data: [DONE]"] false 1
  have hb := h.2.2 (fun m hm => by
    simp only [cancelFrom1, Bool.and_true]
    exact decide_eq_true hm)
  exact ⟨h.1.1, h.1.2, hb.1, hb.2⟩

end Prism
